import Mathlib

/-!
Verification of the client-side login rate limiter and the login form's
submit handler of the ReviewZone repository.

The repository ships the login form (LoginForm / onSubmit), which consumes a
RateLimiter module exposing getStatus, recordAttempt and reset over a
persisted attempt window.  The RateLimiter module itself is not among the
shipped files, so its three operations are modelled from the specification;
the submit handler is embedded directly from the LoginForm source.

Time is modelled as a natural number (milliseconds since epoch); durations
are naturals, and truncated natural subtraction realises max(0, a - b).
-/

namespace RateLimit

/-- Modelled from the spec: the fixed configuration constants of the missing
RateLimiter module (maxAttempts, windowDuration, blockDuration).  The spec
leaves their values open, so they are parameters of the model. -/
structure Config where
  maxAttempts : Nat
  windowDuration : Nat
  blockDuration : Nat
deriving DecidableEq, Repr

/-- Modelled from the spec: the persisted AttemptWindow state of the missing
RateLimiter module: attempt count, optional window start, optional lockout
expiry. -/
structure AttemptWindow where
  attemptCount : Nat
  windowStart : Option Nat
  blockedUntil : Option Nat
deriving DecidableEq, Repr

/-- Modelled from the spec: the Clear state, also the lazily created initial
state of the missing RateLimiter module. -/
def initial : AttemptWindow where
  attemptCount := 0
  windowStart := none
  blockedUntil := none

/-- Modelled from the spec: a lockout is active when blockedUntil is set and
strictly in the future. -/
def blockActive (s : AttemptWindow) (now : Nat) : Bool :=
  match s.blockedUntil with
  | some b => decide (now < b)
  | none => false

/-- Modelled from the spec: the counting window is expired when the current
time strictly exceeds windowStart + windowDuration. -/
def windowExpired (cfg : Config) (s : AttemptWindow) (now : Nat) : Bool :=
  match s.windowStart with
  | some w => decide (w + cfg.windowDuration < now)
  | none => false

/-- Modelled from the spec: the lazy reset the missing RateLimiter module
applies on every access.  A state whose lockout has fully elapsed, or whose
window has expired while no lockout is active, must be treated as the Clear
state on the next read without an explicit reset call. -/
def normalize (cfg : Config) (s : AttemptWindow) (now : Nat) : AttemptWindow :=
  if blockActive s now then s
  else if s.blockedUntil.isSome then initial
  else if windowExpired cfg s now then initial
  else s

/-- The status snapshot the UI renders. -/
structure RateLimitStatus where
  isBlocked : Bool
  remainingAttempts : Nat
  blockTimeRemaining : Nat
deriving DecidableEq, Repr

/-- The status snapshot computed from an already lazily-reset state. -/
def statusOf (cfg : Config) (s' : AttemptWindow) (now : Nat) : RateLimitStatus where
  isBlocked := blockActive s' now
  remainingAttempts := if blockActive s' now then 0 else cfg.maxAttempts - s'.attemptCount
  blockTimeRemaining :=
    match s'.blockedUntil with
    | some b => b - now
    | none => 0

/-- Modelled from the spec: getStatus of the missing RateLimiter module.
After the lazy reset, isBlocked is true iff blockedUntil is set and in the
future; remainingAttempts is maxAttempts minus the attempt count, clamped to
0 while blocked; blockTimeRemaining is max(0, blockedUntil - now). -/
def getStatus (cfg : Config) (s : AttemptWindow) (now : Nat) : RateLimitStatus :=
  statusOf cfg (normalize cfg s now) now

/-- The increment step applied to an already lazily-reset state: a no-op once
the count has reached maxAttempts, otherwise increments within the current
window (starting one at the current time when none is active) and triggers
the lockout when the increment reaches maxAttempts. -/
def recordAttemptAux (cfg : Config) (s' : AttemptWindow) (now : Nat) : AttemptWindow :=
  if cfg.maxAttempts ≤ s'.attemptCount then s'
  else if cfg.maxAttempts ≤ s'.attemptCount + 1 then
    { attemptCount := s'.attemptCount + 1, windowStart := some (s'.windowStart.getD now)
    , blockedUntil := some (now + cfg.blockDuration) }
  else
    { attemptCount := s'.attemptCount + 1, windowStart := some (s'.windowStart.getD now)
    , blockedUntil := s'.blockedUntil }

/-- Modelled from the spec: recordAttempt of the missing RateLimiter module.
Called after an authentication failure; increments attemptCount within the
current window, starting a new window if none is active or the previous one
expired; when the increment reaches maxAttempts it sets
blockedUntil = now + blockDuration; further increments are frozen until
reset. -/
def recordAttempt (cfg : Config) (s : AttemptWindow) (now : Nat) : AttemptWindow :=
  recordAttemptAux cfg (normalize cfg s now) now

/-- Modelled from the spec: reset of the missing RateLimiter module, called
after a successful authentication; clears the count, the window start and the
lockout expiry. -/
def reset (_s : AttemptWindow) : AttemptWindow := initial

/-- Modelled from the spec: reading the persisted state from client storage.
Absent, corrupt or unreadable storage (the none case) fails open to the fresh
Clear state. -/
def loadState (stored : Option AttemptWindow) : AttemptWindow :=
  stored.getD initial

/-- A sequence of recordAttempt calls at the given times, in order. -/
def recordAttempts (cfg : Config) (s : AttemptWindow) (ts : List Nat) : AttemptWindow :=
  ts.foldl (fun a t => recordAttempt cfg a t) s

/-- States reachable from the initial Clear state by the exposed mutating
operations, with arbitrary call times. -/
inductive Reachable (cfg : Config) : AttemptWindow → Prop where
  | init : Reachable cfg initial
  | record (s : AttemptWindow) (now : Nat) :
      Reachable cfg s → Reachable cfg (recordAttempt cfg s now)
  | clear (s s' : AttemptWindow) :
      Reachable cfg s' → Reachable cfg (reset s)

/-- The internal invariant of reachable states: the count never exceeds
maxAttempts, and a set lockout implies the count is exactly maxAttempts. -/
def Inv (cfg : Config) (s : AttemptWindow) : Prop :=
  s.attemptCount ≤ cfg.maxAttempts ∧
    ∀ b, s.blockedUntil = some b → s.attemptCount = cfg.maxAttempts

theorem inv_initial (cfg : Config) : Inv cfg initial := by
  constructor
  · exact Nat.zero_le _
  · intro b hb
    simp [initial] at hb

theorem inv_normalize (cfg : Config) (s : AttemptWindow) (now : Nat)
    (h : Inv cfg s) : Inv cfg (normalize cfg s now) := by
  unfold normalize
  split
  · exact h
  · split
    · exact inv_initial cfg
    · split
      · exact inv_initial cfg
      · exact h

theorem inv_recordAttemptAux (cfg : Config) (s' : AttemptWindow) (now : Nat)
    (h : Inv cfg s') : Inv cfg (recordAttemptAux cfg s' now) := by
  unfold recordAttemptAux
  split
  · exact h
  · rename_i hfrozen
    push_neg at hfrozen
    split
    · rename_i htrig
      refine ⟨?_, ?_⟩
      · dsimp only
        omega
      · intro b _
        dsimp only
        omega
    · rename_i htrig
      push_neg at htrig
      refine ⟨?_, ?_⟩
      · dsimp only
        omega
      · intro b hb
        dsimp only at hb ⊢
        have := h.2 b hb
        omega

theorem inv_recordAttempt (cfg : Config) (s : AttemptWindow) (now : Nat)
    (h : Inv cfg s) : Inv cfg (recordAttempt cfg s now) :=
  inv_recordAttemptAux cfg (normalize cfg s now) now (inv_normalize cfg s now h)

theorem reachable_inv (cfg : Config) (s : AttemptWindow)
    (h : Reachable cfg s) : Inv cfg s := by
  induction h with
  | init => exact inv_initial cfg
  | record s now _ ih => exact inv_recordAttempt cfg s now ih
  | clear s s' _ _ => exact inv_initial cfg

theorem reachable_recordAttempts (cfg : Config) (s : AttemptWindow)
    (ts : List Nat) (h : Reachable cfg s) :
    Reachable cfg (recordAttempts cfg s ts) := by
  induction ts generalizing s with
  | nil => exact h
  | cons t ts ih =>
    exact ih (recordAttempt cfg s t) (Reachable.record s t h)

end RateLimit

namespace LoginForm

open RateLimit

/-- The outcome of the opaque signInWithPassword call: authError is either
present (failure) or absent (success). -/
inductive AuthResult where
  | failure : AuthResult
  | success : AuthResult
deriving DecidableEq, Repr

/-- The observable effect of one run of the LoginForm submit handler: the
limiter state it leaves behind, whether the authentication call was issued,
how often each limiter mutation ran, and whether an error message was set or
the redirect to the dashboard happened. -/
structure SubmitResult where
  limiter : AttemptWindow
  authCalled : Bool
  recordAttemptCalls : Nat
  resetCalls : Nat
  errorShown : Bool
  redirected : Bool
deriving DecidableEq, Repr

/-- The onSubmit handler of the LoginForm source: it reads
RateLimiter.getStatus first and returns with an error message, without
calling signInWithPassword, when isBlocked; otherwise it issues the
authentication call, calls RateLimiter.recordAttempt once and surfaces the
error on failure, and calls RateLimiter.reset and redirects on success. -/
def onSubmit (cfg : Config) (s : AttemptWindow) (now : Nat)
    (auth : AuthResult) : SubmitResult :=
  if (getStatus cfg s now).isBlocked then
    { limiter := s, authCalled := false, recordAttemptCalls := 0
    , resetCalls := 0, errorShown := true, redirected := false }
  else
    match auth with
    | AuthResult.failure =>
        { limiter := recordAttempt cfg s now, authCalled := true
        , recordAttemptCalls := 1, resetCalls := 0
        , errorShown := true, redirected := false }
    | AuthResult.success =>
        { limiter := reset s, authCalled := true
        , recordAttemptCalls := 0, resetCalls := 1
        , errorShown := false, redirected := true }

end LoginForm

namespace RateLimit

/-- A sample configuration used to instantiate the universally quantified
theorems on concrete inputs: 5 attempts, 900 second window, 900 second
block (the scenario of the specification). -/
def cfg5 : Config where
  maxAttempts := 5
  windowDuration := 900
  blockDuration := 900

theorem statusOf_initial (cfg : Config) (now : Nat) :
    statusOf cfg initial now =
      { isBlocked := false, remainingAttempts := cfg.maxAttempts
      , blockTimeRemaining := 0 } := by
  unfold statusOf blockActive initial
  simp

theorem blockActive_initial (now : Nat) : blockActive initial now = false := rfl

theorem blockActive_normalize (cfg : Config) (s : AttemptWindow) (now : Nat) :
    blockActive (normalize cfg s now) now = blockActive s now := by
  unfold normalize
  split
  · rfl
  · rename_i hact
    split
    · rw [blockActive_initial]
      exact (Bool.not_eq_true _).mp hact |>.symm
    · split
      · rw [blockActive_initial]
        exact (Bool.not_eq_true _).mp hact |>.symm
      · rfl

theorem blockActive_iff (s : AttemptWindow) (now : Nat) :
    blockActive s now = true ↔ ∃ b, s.blockedUntil = some b ∧ now < b := by
  unfold blockActive
  cases hb : s.blockedUntil with
  | none => simp
  | some b => simp [hb]

theorem getStatus_isBlocked (cfg : Config) (s : AttemptWindow) (now : Nat) :
    (getStatus cfg s now).isBlocked = blockActive s now :=
  blockActive_normalize cfg s now

theorem getStatus_blockTimeRemaining (cfg : Config) (s : AttemptWindow) (now : Nat) :
    (getStatus cfg s now).blockTimeRemaining =
      match s.blockedUntil with
      | some b => b - now
      | none => 0 := by
  unfold getStatus normalize statusOf
  split
  · rfl
  · rename_i hact
    split
    · rename_i hsome
      unfold blockActive at hact
      cases hb : s.blockedUntil with
      | none => rw [hb] at hsome; simp at hsome
      | some b =>
        rw [hb] at hact
        simp only [decide_eq_true_eq] at hact
        simp only [initial, hb]
        omega
    · rename_i hsome
      cases hb : s.blockedUntil with
      | none =>
        split
        · simp [initial]
        · simp [hb]
      | some b => rw [hb] at hsome; simp at hsome

end RateLimit

namespace RateLimit

/-- Claim C2: for every persisted state and current time, isBlocked is true
iff blockedUntil is set and strictly in the future, and blockTimeRemaining is
max(0, blockedUntil - now), zero when not blocked; remainingAttempts is
maxAttempts minus the attempt count as read after the lazy expiry reset
(0 once the window or block has expired), clamped to 0 while blocked. -/
theorem C2_getStatus_formula (cfg : Config) (s : AttemptWindow) (now : Nat) :
    ((getStatus cfg s now).isBlocked = true ↔ ∃ b, s.blockedUntil = some b ∧ now < b) ∧
    ((getStatus cfg s now).remainingAttempts =
      if (getStatus cfg s now).isBlocked then 0
      else cfg.maxAttempts - (normalize cfg s now).attemptCount) ∧
    ((getStatus cfg s now).blockTimeRemaining =
      match s.blockedUntil with
      | some b => b - now
      | none => 0) ∧
    ((getStatus cfg s now).isBlocked = false →
      (getStatus cfg s now).blockTimeRemaining = 0) := by
  refine ⟨?_, ?_, getStatus_blockTimeRemaining cfg s now, ?_⟩
  · rw [getStatus_isBlocked]
    exact blockActive_iff s now
  · rw [getStatus_isBlocked]
    unfold getStatus statusOf
    rw [blockActive_normalize]
  · intro hnb
    rw [getStatus_isBlocked] at hnb
    rw [getStatus_blockTimeRemaining]
    cases hb : s.blockedUntil with
    | none => rfl
    | some b =>
      unfold blockActive at hnb
      rw [hb] at hnb
      simp only [decide_eq_false_iff_not, Nat.not_lt] at hnb
      show b - now = 0
      omega

/-- Claim C2 as frozen is false: remainingAttempts is not always maxAttempts
minus the persisted attemptCount — once the counting window has expired the
lazy reset makes getStatus report the full allowance again.  With
maxAttempts = 5, a persisted count of 2, windowStart = 0 and now = 901 the
claim predicts max(0, 5 - 2) = 3 but getStatus returns 5. -/
theorem C2_counterexample :
    ¬ ((getStatus cfg5
          { attemptCount := 2, windowStart := some 0, blockedUntil := none }
          901).remainingAttempts = cfg5.maxAttempts - 2) := by
  decide

theorem C2_witness :
    ((getStatus cfg5 { attemptCount := 1, windowStart := some 0, blockedUntil := none }
        10).isBlocked = true ↔
      ∃ b, ({ attemptCount := 1, windowStart := some 0, blockedUntil := none } :
          AttemptWindow).blockedUntil = some b ∧ 10 < b) ∧
    ((getStatus cfg5 { attemptCount := 1, windowStart := some 0, blockedUntil := none }
        10).remainingAttempts =
      if (getStatus cfg5 { attemptCount := 1, windowStart := some 0, blockedUntil := none }
          10).isBlocked then 0
      else cfg5.maxAttempts -
        (normalize cfg5 { attemptCount := 1, windowStart := some 0, blockedUntil := none }
          10).attemptCount) ∧
    ((getStatus cfg5 { attemptCount := 1, windowStart := some 0, blockedUntil := none }
        10).blockTimeRemaining =
      match ({ attemptCount := 1, windowStart := some 0, blockedUntil := none } :
          AttemptWindow).blockedUntil with
      | some b => b - 10
      | none => 0) ∧
    ((getStatus cfg5 { attemptCount := 1, windowStart := some 0, blockedUntil := none }
        10).isBlocked = false →
      (getStatus cfg5 { attemptCount := 1, windowStart := some 0, blockedUntil := none }
        10).blockTimeRemaining = 0) :=
  C2_getStatus_formula cfg5
    { attemptCount := 1, windowStart := some 0, blockedUntil := none } 10

/-- Claim C4: reset called in any state clears the count, the window start
and the lockout expiry; the immediately following getStatus reports not
blocked, the full attempt allowance and zero block time; and reset is
idempotent. -/
theorem C4_reset_clears (cfg : Config) (s : AttemptWindow) (now : Nat) :
    reset s = { attemptCount := 0, windowStart := none, blockedUntil := none } ∧
    getStatus cfg (reset s) now =
      { isBlocked := false, remainingAttempts := cfg.maxAttempts
      , blockTimeRemaining := 0 } ∧
    reset (reset s) = reset s := by
  refine ⟨rfl, ?_, rfl⟩
  show statusOf cfg (normalize cfg initial now) now = _
  have hnorm : normalize cfg initial now = initial := rfl
  rw [hnorm, statusOf_initial]

/-- Claim C5: time passage alone returns the limiter to Clear — in any
unblocked state whose window has expired, and in any blocked state whose
lockout has fully elapsed, getStatus reports not blocked, the full attempt
allowance and zero block time without an explicit reset call. -/
theorem C5_time_clears (cfg : Config) (s : AttemptWindow) (now : Nat)
    (h : (s.blockedUntil = none ∧
            ∃ w, s.windowStart = some w ∧ w + cfg.windowDuration < now) ∨
         (∃ b, s.blockedUntil = some b ∧ b ≤ now)) :
    getStatus cfg s now =
      { isBlocked := false, remainingAttempts := cfg.maxAttempts
      , blockTimeRemaining := 0 } := by
  have hnorm : normalize cfg s now = initial := by
    rcases h with ⟨hb, w, hw, hexp⟩ | ⟨b, hb, hel⟩
    · unfold normalize blockActive windowExpired
      rw [hb, hw]
      simp only [Option.isSome_none, Bool.false_eq_true, if_false]
      simp [hexp]
    · unfold normalize blockActive
      rw [hb]
      simp only [Option.isSome_some, if_true]
      simp only [decide_eq_true_eq]
      rw [if_neg (by omega)]
  show statusOf cfg (normalize cfg s now) now = _
  rw [hnorm, statusOf_initial]

theorem C5_witness :
    ((({ attemptCount := 2, windowStart := some 0, blockedUntil := none } :
          AttemptWindow).blockedUntil = none ∧
        ∃ w, ({ attemptCount := 2, windowStart := some 0, blockedUntil := none } :
            AttemptWindow).windowStart = some w ∧ w + cfg5.windowDuration < 901) ∨
      (∃ b, ({ attemptCount := 2, windowStart := some 0, blockedUntil := none } :
          AttemptWindow).blockedUntil = some b ∧ b ≤ 901)) ∧
    getStatus cfg5 { attemptCount := 2, windowStart := some 0, blockedUntil := none }
        901 =
      { isBlocked := false, remainingAttempts := cfg5.maxAttempts
      , blockTimeRemaining := 0 } :=
  ⟨Or.inl ⟨rfl, 0, rfl, by decide⟩,
    C5_time_clears cfg5
      { attemptCount := 2, windowStart := some 0, blockedUntil := none } 901
      (Or.inl ⟨rfl, 0, rfl, by decide⟩)⟩

/-- Claim C7: no operation throws on normal use (every operation is a total
function here), getStatus always returns a well-formed status, and absent,
corrupt or unreadable persisted state fails open: every operation behaves
exactly as from the fresh Clear state. -/
theorem C7_fail_open (cfg : Config) (s : AttemptWindow) (now : Nat) :
    loadState none = initial ∧
    getStatus cfg (loadState none) now =
      { isBlocked := false, remainingAttempts := cfg.maxAttempts
      , blockTimeRemaining := 0 } ∧
    recordAttempt cfg (loadState none) now = recordAttempt cfg initial now ∧
    reset (loadState none) = reset initial ∧
    (getStatus cfg s now).remainingAttempts ≤ cfg.maxAttempts ∧
    ((getStatus cfg s now).isBlocked = false →
      (getStatus cfg s now).blockTimeRemaining = 0) ∧
    ((getStatus cfg s now).isBlocked = true →
      (getStatus cfg s now).remainingAttempts = 0 ∧
      0 < (getStatus cfg s now).blockTimeRemaining) := by
  refine ⟨rfl, ?_, rfl, rfl, ?_, ?_, ?_⟩
  · show statusOf cfg (normalize cfg initial now) now = _
    exact statusOf_initial cfg now
  · show (statusOf cfg (normalize cfg s now) now).remainingAttempts ≤ _
    unfold statusOf
    split
    · exact Nat.zero_le _
    · exact Nat.sub_le _ _
  · intro hnb
    rw [getStatus_isBlocked] at hnb
    rw [getStatus_blockTimeRemaining]
    cases hb : s.blockedUntil with
    | none => rfl
    | some b =>
      unfold blockActive at hnb
      rw [hb] at hnb
      simp only [decide_eq_false_iff_not, Nat.not_lt] at hnb
      show b - now = 0
      omega
  · intro hblk
    constructor
    · show (statusOf cfg (normalize cfg s now) now).remainingAttempts = 0
      have : blockActive (normalize cfg s now) now = true := by
        rw [blockActive_normalize]
        rw [getStatus_isBlocked] at hblk
        exact hblk
      unfold statusOf
      rw [this]
      simp
    · rw [getStatus_blockTimeRemaining]
      rw [getStatus_isBlocked] at hblk
      rcases (blockActive_iff s now).mp hblk with ⟨b, hb, hlt⟩
      rw [hb]
      show 0 < b - now
      omega

theorem C7_witness :
    loadState none = initial ∧
    getStatus cfg5 (loadState none) 0 =
      { isBlocked := false, remainingAttempts := cfg5.maxAttempts
      , blockTimeRemaining := 0 } ∧
    recordAttempt cfg5 (loadState none) 0 = recordAttempt cfg5 initial 0 ∧
    reset (loadState none) = reset initial ∧
    (getStatus cfg5 initial 0).remainingAttempts ≤ cfg5.maxAttempts ∧
    ((getStatus cfg5 initial 0).isBlocked = false →
      (getStatus cfg5 initial 0).blockTimeRemaining = 0) ∧
    ((getStatus cfg5 initial 0).isBlocked = true →
      (getStatus cfg5 initial 0).remainingAttempts = 0 ∧
      0 < (getStatus cfg5 initial 0).blockTimeRemaining) :=
  C7_fail_open cfg5 initial 0

end RateLimit

namespace LoginForm

open RateLimit

/-- Claim C8: the login form never issues the authentication call while the
limiter reports blocked — the submit handler consults getStatus first and,
when isBlocked, returns with an error message without calling
signInWithPassword. -/
theorem C8_no_auth_while_blocked (cfg : Config) (s : AttemptWindow) (now : Nat)
    (auth : AuthResult) (hb : (getStatus cfg s now).isBlocked = true) :
    (onSubmit cfg s now auth).authCalled = false ∧
    (onSubmit cfg s now auth).errorShown = true ∧
    (onSubmit cfg s now auth).redirected = false := by
  unfold onSubmit
  rw [if_pos hb]
  exact ⟨rfl, rfl, rfl⟩

theorem C8_witness :
    (getStatus cfg5
        { attemptCount := 5, windowStart := some 0, blockedUntil := some 900 }
        10).isBlocked = true ∧
    ((onSubmit cfg5
        { attemptCount := 5, windowStart := some 0, blockedUntil := some 900 }
        10 AuthResult.failure).authCalled = false ∧
      (onSubmit cfg5
        { attemptCount := 5, windowStart := some 0, blockedUntil := some 900 }
        10 AuthResult.failure).errorShown = true ∧
      (onSubmit cfg5
        { attemptCount := 5, windowStart := some 0, blockedUntil := some 900 }
        10 AuthResult.failure).redirected = false) :=
  ⟨by decide,
    C8_no_auth_while_blocked cfg5
      { attemptCount := 5, windowStart := some 0, blockedUntil := some 900 }
      10 AuthResult.failure (by decide)⟩

/-- Claim C9: on every settled submission the handler calls recordAttempt
exactly once iff the authentication call failed and calls reset iff it
succeeded; on the blocked early return neither mutation runs, so
recordAttempt is never called before the authentication outcome is known. -/
theorem C9_record_on_failure_reset_on_success (cfg : Config) (s : AttemptWindow)
    (now : Nat) (auth : AuthResult) :
    ((onSubmit cfg s now auth).authCalled = true →
      ((onSubmit cfg s now auth).recordAttemptCalls = 1 ↔ auth = AuthResult.failure) ∧
      ((onSubmit cfg s now auth).resetCalls = 1 ↔ auth = AuthResult.success)) ∧
    ((onSubmit cfg s now auth).authCalled = false →
      (onSubmit cfg s now auth).recordAttemptCalls = 0 ∧
      (onSubmit cfg s now auth).resetCalls = 0) := by
  unfold onSubmit
  split
  · constructor
    · intro h
      simp at h
    · intro _
      exact ⟨rfl, rfl⟩
  · cases auth
    · constructor
      · intro _
        constructor
        · simp
        · constructor
          · intro h
            simp at h
          · intro h
            simp at h
      · intro h
        simp at h
    · constructor
      · intro _
        constructor
        · constructor
          · intro h
            simp at h
          · intro h
            simp at h
        · simp
      · intro h
        simp at h

theorem C9_witness :
    ((onSubmit cfg5 initial 0 AuthResult.failure).authCalled = true →
      ((onSubmit cfg5 initial 0 AuthResult.failure).recordAttemptCalls = 1 ↔
        AuthResult.failure = AuthResult.failure) ∧
      ((onSubmit cfg5 initial 0 AuthResult.failure).resetCalls = 1 ↔
        AuthResult.failure = AuthResult.success)) ∧
    ((onSubmit cfg5 initial 0 AuthResult.failure).authCalled = false →
      (onSubmit cfg5 initial 0 AuthResult.failure).recordAttemptCalls = 0 ∧
      (onSubmit cfg5 initial 0 AuthResult.failure).resetCalls = 0) :=
  C9_record_on_failure_reset_on_success cfg5 initial 0 AuthResult.failure

/-- Claim C10: a submission attempted while blocked leaves the persisted
limiter state entirely unchanged — the early-return path calls neither
recordAttempt nor reset. -/
theorem C10_blocked_submit_frame (cfg : Config) (s : AttemptWindow) (now : Nat)
    (auth : AuthResult) (hb : (getStatus cfg s now).isBlocked = true) :
    (onSubmit cfg s now auth).limiter = s ∧
    (onSubmit cfg s now auth).recordAttemptCalls = 0 ∧
    (onSubmit cfg s now auth).resetCalls = 0 := by
  unfold onSubmit
  rw [if_pos hb]
  exact ⟨rfl, rfl, rfl⟩

theorem C10_witness :
    (getStatus cfg5
        { attemptCount := 5, windowStart := some 3, blockedUntil := some 800 }
        20).isBlocked = true ∧
    ((onSubmit cfg5
        { attemptCount := 5, windowStart := some 3, blockedUntil := some 800 }
        20 AuthResult.success).limiter =
      { attemptCount := 5, windowStart := some 3, blockedUntil := some 800 } ∧
      (onSubmit cfg5
        { attemptCount := 5, windowStart := some 3, blockedUntil := some 800 }
        20 AuthResult.success).recordAttemptCalls = 0 ∧
      (onSubmit cfg5
        { attemptCount := 5, windowStart := some 3, blockedUntil := some 800 }
        20 AuthResult.success).resetCalls = 0) :=
  ⟨by decide,
    C10_blocked_submit_frame cfg5
      { attemptCount := 5, windowStart := some 3, blockedUntil := some 800 }
      20 AuthResult.success (by decide)⟩

end LoginForm

namespace RateLimit

/-- Claim C3: in every reachable state the attempt count never exceeds
maxAttempts, and the recordAttempt call whose increment reaches maxAttempts
deterministically sets blockedUntil = now + blockDuration. -/
theorem C3_count_bound_and_trigger (cfg : Config) (s : AttemptWindow) (now : Nat)
    (hr : Reachable cfg s) :
    s.attemptCount ≤ cfg.maxAttempts ∧
    ((normalize cfg s now).attemptCount + 1 = cfg.maxAttempts →
      (recordAttempt cfg s now).blockedUntil = some (now + cfg.blockDuration) ∧
      (recordAttempt cfg s now).attemptCount = cfg.maxAttempts) := by
  refine ⟨(reachable_inv cfg s hr).1, ?_⟩
  intro ht
  unfold recordAttempt recordAttemptAux
  rw [if_neg (by omega), if_pos (by omega)]
  refine ⟨rfl, ?_⟩
  dsimp only
  omega

theorem C3_witness :
    (recordAttempts cfg5 initial [0, 0, 0, 0]).attemptCount ≤ cfg5.maxAttempts ∧
    ((normalize cfg5 (recordAttempts cfg5 initial [0, 0, 0, 0]) 0).attemptCount + 1 =
        cfg5.maxAttempts →
      (recordAttempt cfg5 (recordAttempts cfg5 initial [0, 0, 0, 0]) 0).blockedUntil =
        some (0 + cfg5.blockDuration) ∧
      (recordAttempt cfg5 (recordAttempts cfg5 initial [0, 0, 0, 0]) 0).attemptCount =
        cfg5.maxAttempts) :=
  C3_count_bound_and_trigger cfg5 (recordAttempts cfg5 initial [0, 0, 0, 0]) 0
    (reachable_recordAttempts cfg5 initial [0, 0, 0, 0] Reachable.init)

/-- Claim C6: blockedUntil is monotonically non-decreasing across re-entrant
failures — a recordAttempt call made in a reachable state while the lockout
is still active never moves blockedUntil earlier (it leaves it unchanged). -/
theorem C6_blockedUntil_monotone (cfg : Config) (s : AttemptWindow) (now b : Nat)
    (hr : Reachable cfg s) (hb : s.blockedUntil = some b) (hnow : now < b) :
    ∃ b', (recordAttempt cfg s now).blockedUntil = some b' ∧ b ≤ b' := by
  have hcount := (reachable_inv cfg s hr).2 b hb
  have hact : blockActive s now = true := by
    unfold blockActive
    rw [hb]
    simpa using hnow
  have hnorm : normalize cfg s now = s := by
    unfold normalize
    rw [hact]
    simp
  unfold recordAttempt recordAttemptAux
  rw [hnorm, if_pos (Nat.le_of_eq hcount.symm)]
  exact ⟨b, hb, Nat.le_refl b⟩

theorem C6_witness :
    ∃ b', (recordAttempt cfg5 (recordAttempts cfg5 initial [0, 0, 0, 0, 0])
        10).blockedUntil = some b' ∧ 900 ≤ b' :=
  C6_blockedUntil_monotone cfg5 (recordAttempts cfg5 initial [0, 0, 0, 0, 0]) 10 900
    (reachable_recordAttempts cfg5 initial [0, 0, 0, 0, 0] Reachable.init)
    (by decide) (by decide)

end RateLimit


namespace RateLimit

theorem recordAttemptAux_eq (cfg : Config) (c : Nat) (w bu : Option Nat)
    (now : Nat) (hc : c < cfg.maxAttempts) :
    recordAttemptAux cfg { attemptCount := c, windowStart := w, blockedUntil := bu } now =
      if cfg.maxAttempts ≤ c + 1 then
        { attemptCount := c + 1, windowStart := some (w.getD now)
        , blockedUntil := some (now + cfg.blockDuration) }
      else
        { attemptCount := c + 1, windowStart := some (w.getD now), blockedUntil := bu } := by
  unfold recordAttemptAux
  dsimp only
  rw [if_neg (by omega)]

theorem recordAttempt_inWindow (cfg : Config) (c t0 t : Nat)
    (hw : t ≤ t0 + cfg.windowDuration) (hc : c < cfg.maxAttempts) :
    recordAttempt cfg
        { attemptCount := c, windowStart := some t0, blockedUntil := none } t =
      if cfg.maxAttempts ≤ c + 1 then
        { attemptCount := c + 1, windowStart := some t0
        , blockedUntil := some (t + cfg.blockDuration) }
      else
        { attemptCount := c + 1, windowStart := some t0, blockedUntil := none } := by
  have hact : blockActive
      { attemptCount := c, windowStart := some t0, blockedUntil := none } t = false := rfl
  have hexp : windowExpired cfg
      { attemptCount := c, windowStart := some t0, blockedUntil := none } t = false := by
    show decide (t0 + cfg.windowDuration < t) = false
    exact decide_eq_false (by omega)
  have hnorm : normalize cfg
      { attemptCount := c, windowStart := some t0, blockedUntil := none } t =
      { attemptCount := c, windowStart := some t0, blockedUntil := none } := by
    unfold normalize
    rw [hact, hexp]
    simp
  show recordAttemptAux cfg _ t = _
  rw [hnorm, recordAttemptAux_eq cfg c (some t0) none t hc]
  simp only [Option.getD_some]

theorem recordAttempt_initial (cfg : Config) (t0 : Nat) (hmax : 0 < cfg.maxAttempts) :
    recordAttempt cfg initial t0 =
      if cfg.maxAttempts ≤ 1 then
        { attemptCount := 1, windowStart := some t0
        , blockedUntil := some (t0 + cfg.blockDuration) }
      else
        { attemptCount := 1, windowStart := some t0, blockedUntil := none } := by
  show recordAttemptAux cfg (normalize cfg initial t0) t0 = _
  have hnorm : normalize cfg initial t0 = initial := rfl
  have hinit : initial = { attemptCount := 0, windowStart := none, blockedUntil := none } := rfl
  rw [hnorm, hinit, recordAttemptAux_eq cfg 0 none none t0 (by omega)]
  simp only [Option.getD_none, Nat.zero_add]

end RateLimit

namespace RateLimit

theorem recordAttempts_reaches_max (cfg : Config) (ts : List Nat) :
    ∀ (c t0 : Nat) (hne : ts ≠ []),
      c + ts.length = cfg.maxAttempts →
      (∀ t ∈ ts, t ≤ t0 + cfg.windowDuration) →
      recordAttempts cfg
          { attemptCount := c, windowStart := some t0, blockedUntil := none } ts =
        { attemptCount := cfg.maxAttempts, windowStart := some t0
        , blockedUntil := some (ts.getLast hne + cfg.blockDuration) } := by
  induction ts with
  | nil =>
    intro c t0 hne
    exact absurd rfl hne
  | cons t ts ih =>
    intro c t0 hne hlen hwin
    cases ts with
    | nil =>
      have hc1 : c + 1 = cfg.maxAttempts := by simpa using hlen
      have hstep : recordAttempts cfg
          { attemptCount := c, windowStart := some t0, blockedUntil := none } [t] =
          recordAttempt cfg
            { attemptCount := c, windowStart := some t0, blockedUntil := none } t := rfl
      rw [hstep, recordAttempt_inWindow cfg c t0 t (hwin t (by simp)) (by omega)]
      rw [if_pos (by omega)]
      rw [hc1]
      rfl
    | cons u us =>
      simp only [List.length_cons] at hlen
      have hstep : recordAttempts cfg
          { attemptCount := c, windowStart := some t0, blockedUntil := none }
            (t :: u :: us) =
          recordAttempts cfg
            (recordAttempt cfg
              { attemptCount := c, windowStart := some t0, blockedUntil := none } t)
            (u :: us) := rfl
      rw [hstep, recordAttempt_inWindow cfg c t0 t (hwin t (by simp)) (by omega)]
      rw [if_neg (by omega)]
      have hrest := ih (c + 1) t0 (List.cons_ne_nil u us)
        (by simp only [List.length_cons]; omega)
        (fun t' ht' => hwin t' (List.mem_cons_of_mem t ht'))
      rw [hrest]
      rfl

end RateLimit

namespace RateLimit

theorem getStatus_freshBlock (cfg : Config) (c t0 b now : Nat) (hb : now < b) :
    getStatus cfg
        { attemptCount := c, windowStart := some t0, blockedUntil := some b } now =
      { isBlocked := true, remainingAttempts := 0, blockTimeRemaining := b - now } := by
  have hact : blockActive
      { attemptCount := c, windowStart := some t0, blockedUntil := some b } now = true := by
    show decide (now < b) = true
    exact decide_eq_true hb
  have hnorm : normalize cfg
      { attemptCount := c, windowStart := some t0, blockedUntil := some b } now =
      { attemptCount := c, windowStart := some t0, blockedUntil := some b } := by
    unfold normalize
    rw [hact]
    rfl
  show statusOf cfg _ now = _
  rw [hnorm]
  unfold statusOf
  rw [hact]
  rfl

/-- Claim C1: starting from the Clear state, after exactly maxAttempts
recordAttempt calls with no intervening reset and no window expiry (every
call time lies within the window opened by the first call), getStatus at the
time of the last call reports isBlocked = true with a positive
blockTimeRemaining. -/
theorem C1_blocked_after_max_attempts (cfg : Config) (t0 : Nat) (rest : List Nat)
    (hlen : (t0 :: rest).length = cfg.maxAttempts)
    (hwin : ∀ t ∈ t0 :: rest, t ≤ t0 + cfg.windowDuration)
    (hbd : 0 < cfg.blockDuration) :
    (getStatus cfg (recordAttempts cfg initial (t0 :: rest))
        ((t0 :: rest).getLast (List.cons_ne_nil t0 rest))).isBlocked = true ∧
    0 < (getStatus cfg (recordAttempts cfg initial (t0 :: rest))
        ((t0 :: rest).getLast (List.cons_ne_nil t0 rest))).blockTimeRemaining := by
  have hmax : 0 < cfg.maxAttempts := by
    rw [← hlen]
    simp
  have hfinal : recordAttempts cfg initial (t0 :: rest) =
      { attemptCount := cfg.maxAttempts, windowStart := some t0
      , blockedUntil :=
          some ((t0 :: rest).getLast (List.cons_ne_nil t0 rest) + cfg.blockDuration) } := by
    have hstep : recordAttempts cfg initial (t0 :: rest) =
        recordAttempts cfg (recordAttempt cfg initial t0) rest := rfl
    cases rest with
    | nil =>
      have h1 : cfg.maxAttempts = 1 := by simpa using hlen.symm
      rw [hstep, recordAttempt_initial cfg t0 hmax, if_pos (by omega)]
      rw [h1]
      rfl
    | cons u us =>
      simp only [List.length_cons] at hlen
      rw [hstep, recordAttempt_initial cfg t0 hmax, if_neg (by omega)]
      have hrest := recordAttempts_reaches_max cfg (u :: us) 1 t0
        (List.cons_ne_nil u us) (by simp only [List.length_cons]; omega)
        (fun t' ht' => hwin t' (List.mem_cons_of_mem t0 ht'))
      rw [hrest]
      rfl
  rw [hfinal, getStatus_freshBlock cfg cfg.maxAttempts t0 _ _ (by omega)]
  exact ⟨rfl, by dsimp only; omega⟩

theorem C1_witness :
    ([(0 : Nat), 1, 2, 3, 4].length = cfg5.maxAttempts) ∧
    ((getStatus cfg5 (recordAttempts cfg5 initial [0, 1, 2, 3, 4])
        ([(0 : Nat), 1, 2, 3, 4].getLast (List.cons_ne_nil 0 [1, 2, 3, 4]))).isBlocked =
      true ∧
    0 < (getStatus cfg5 (recordAttempts cfg5 initial [0, 1, 2, 3, 4])
        ([(0 : Nat), 1, 2, 3, 4].getLast
          (List.cons_ne_nil 0 [1, 2, 3, 4]))).blockTimeRemaining) :=
  ⟨by decide,
    C1_blocked_after_max_attempts cfg5 0 [1, 2, 3, 4] (by decide)
      (by decide) (by decide)⟩

end RateLimit
